import Mathlib

/-!
Shallow embedding of the resource-creation and memory-abstraction core of the
lightweightvk / IGL Vulkan backend: the buffer lifecycle in
src/igl/vulkan/Buffer.cpp and the Device resource factory (createBuffer,
createRenderPipeline, createShaderModule, getTextureFormatCapabilities).
Machine sizes are modelled as Nat; device memory as a list of bytes; out
parameters written through pointers as explicit values, with none standing
for a pointer the callee never wrote through.
-/

namespace igl

/-- Result codes from igl::Result (Result.h is not under src; the codes named
by the source and the spec error taxonomy are modelled). -/
inductive ResultCode where
  | Ok
  | ArgumentOutOfRange
  | ArgumentInvalid
  | ArgumentNull
  | InvalidOperation
deriving DecidableEq

/-- igl::Result: a code plus a message. Result() default-constructs to Ok. -/
structure Result where
  code : ResultCode
  message : String
deriving DecidableEq

/-- The default-constructed igl::Result(), i.e. success. -/
def Result.success : Result := { code := ResultCode.Ok, message := "" }

/-- Result::isOk(). -/
def Result.isOk (r : Result) : Bool := r.code = ResultCode.Ok

/-- igl::BufferRange, constructed as BufferRange(size, offset) in the source. -/
structure BufferRange where
  size : Nat
  offset : Nat
deriving DecidableEq

/-- igl::ResourceStorage tiers used by this core (spec section 3: Private =
device-local only, Shared = host-visible-and-coherent). -/
inductive ResourceStorage where
  | Private
  | Shared
deriving DecidableEq

/-- Modelled from the spec: BufferDesc::BufferTypeBits (the header is not
under src); the usage-type bitmask has one bit each for
index/vertex/uniform/storage/indirect. -/
def BufferTypeBits.Index : Nat := 1
def BufferTypeBits.Vertex : Nat := 2
def BufferTypeBits.Uniform : Nat := 4
def BufferTypeBits.Storage : Nat := 8
def BufferTypeBits.Indirect : Nat := 16

/-- Vulkan buffer-usage flag bits (vulkan_core.h values; the header is an
external collaborator, not under src). -/
def VK_BUFFER_USAGE_TRANSFER_SRC_BIT : Nat := 0x00000001
def VK_BUFFER_USAGE_TRANSFER_DST_BIT : Nat := 0x00000002
def VK_BUFFER_USAGE_UNIFORM_BUFFER_BIT : Nat := 0x00000010
def VK_BUFFER_USAGE_STORAGE_BUFFER_BIT : Nat := 0x00000020
def VK_BUFFER_USAGE_INDEX_BUFFER_BIT : Nat := 0x00000040
def VK_BUFFER_USAGE_VERTEX_BUFFER_BIT : Nat := 0x00000080
def VK_BUFFER_USAGE_INDIRECT_BUFFER_BIT : Nat := 0x00000100
def VK_BUFFER_USAGE_SHADER_DEVICE_ADDRESS_BIT_KHR : Nat := 0x00020000

/-- Vulkan memory-property flag bits (vulkan_core.h values). -/
def VK_MEMORY_PROPERTY_DEVICE_LOCAL_BIT : Nat := 0x00000001
def VK_MEMORY_PROPERTY_HOST_VISIBLE_BIT : Nat := 0x00000002
def VK_MEMORY_PROPERTY_HOST_COHERENT_BIT : Nat := 0x00000004

/-- Modelled from the spec: resourceStorageToVkMemoryPropertyFlags
(igl/vulkan/Common.cpp is not under src). Private maps to device-local-only
memory; Shared maps to host-visible-and-coherent memory (spec section 3). -/
def resourceStorageToVkMemoryPropertyFlags : ResourceStorage → Nat
  | ResourceStorage.Private => VK_MEMORY_PROPERTY_DEVICE_LOCAL_BIT
  | ResourceStorage.Shared =>
      VK_MEMORY_PROPERTY_HOST_VISIBLE_BIT ||| VK_MEMORY_PROPERTY_HOST_COHERENT_BIT

/-- igl::BufferDesc: the fields Buffer.cpp and Device.cpp read. The data
pointer is modelled as an optional byte list (none = nullptr). -/
structure BufferDesc where
  data : Option (List Nat)
  length : Nat
  type : Nat
  storage : ResourceStorage
  debugName : String
deriving DecidableEq

/-- The VulkanContext facts this core consults: whether staging is enabled. -/
structure VulkanContext where
  useStaging : Bool
deriving DecidableEq

/-- Reading sz bytes of device memory starting at off. -/
def readBytes (l : List Nat) (off sz : Nat) : List Nat := (l.drop off).take sz

/-- Overwriting device memory at off with the bytes d (a memcpy into the
middle of the allocation; every use is bounds-guarded). -/
def writeBytes (l : List Nat) (off : Nat) (d : List Nat) : List Nat :=
  l.take off ++ (d ++ l.drop (off + d.length))

/-- Modelled from the spec: VulkanStagingDevice::bufferSubData (the Staging
Transfer Engine, not under src) transfers sz bytes of data into the
destination buffer at offset off (spec section 2: the only path by which data
moves between host memory and device-local memory). -/
def stagingBufferSubData (contents : List Nat) (off sz : Nat) (data : List Nat) : List Nat :=
  writeBytes contents off (data.take sz)

/-- Modelled from the spec: VulkanStagingDevice::getBufferSubData downloads
sz bytes from the source buffer at offset off into host memory. -/
def stagingGetBufferSubData (contents : List Nat) (off sz : Nat) : List Nat :=
  readBytes contents off sz

namespace vulkan

/-- State of an igl::vulkan::Buffer after a successful create: the immutable
descriptor facts (length, effective storage tier), the backend allocation
(hostVisible models buffer_ isMapped, contents models the device bytes), the
active mapped range (size 0 when unmapped, as in the source) and the scratch
byte buffer tmpBuffer_ used to emulate mapping of device-local memory. -/
structure Buffer where
  length : Nat
  storage : ResourceStorage
  hostVisible : Bool
  contents : List Nat
  mappedRange : BufferRange
  tmpBuffer : List Nat
deriving DecidableEq

/-- Output of Buffer::upload: the buffer after the call and the returned
Result. -/
structure UploadOut where
  state : Buffer
  result : Result
deriving DecidableEq

/-- Buffer::upload (Buffer.cpp lines 75-91): a null data pointer returns the
default Result; a range whose end exceeds the buffer length returns
ArgumentOutOfRange; otherwise the byte transfer is delegated to the staging
device and success is returned. -/
def Buffer.upload (b : Buffer) (data : Option (List Nat)) (range : BufferRange) : UploadOut :=
  match data with
  | none => { state := b, result := Result.success }
  | some d =>
    if range.offset + range.size ≤ b.length then
      { state := { b with
          contents := stagingBufferSubData b.contents range.offset range.size d },
        result := Result.success }
    else
      { state := b,
        result := { code := ResultCode.ArgumentOutOfRange, message := "Out of range" } }

/-- Output of Buffer::unmap: the buffer after the call, plus whether the
assertion-level warning (unmap without map) fired. -/
structure UnmapOut where
  state : Buffer
  warned : Bool
deriving DecidableEq

/-- Buffer::unmap (Buffer.cpp lines 140-148): warns if no mapping is active;
on the device-local path uploads the scratch buffer back at the mapped
offset; finally clears the mapped-range marker. -/
def Buffer.unmap (b : Buffer) : UnmapOut :=
  let warned := b.mappedRange.size = 0
  let b1 :=
    if b.hostVisible = false then
      (b.upload (some b.tmpBuffer) { size := b.tmpBuffer.length, offset := b.mappedRange.offset }).state
    else b
  { state := { b1 with mappedRange := { b1.mappedRange with size := 0 } },
    warned := decide warned }

/-- Output of Buffer::map: the buffer after the call, the bytes readable
through the returned pointer (none when nullptr is returned), the value
written through outResult, and whether the double-map assertion fired. -/
structure MapOut where
  state : Buffer
  view : Option (List Nat)
  result : Result
  warned : Bool
deriving DecidableEq

/-- Buffer::map (Buffer.cpp lines 108-138): rejects a range exceeding the
buffer bounds; if a different range is already mapped, warns and implicitly
unmaps it; records the new mapped range; on the device-local path resizes the
scratch buffer, downloads the current device contents into it and returns a
pointer into the scratch; on the host-visible path returns a pointer into the
coherent allocation at the range offset. -/
def Buffer.map (b : Buffer) (range : BufferRange) : MapOut :=
  if range.size > b.length ∨ range.offset > b.length - range.size then
    { state := b, view := none,
      result := { code := ResultCode.ArgumentOutOfRange,
                  message := "Range exceeds buffer length" },
      warned := false }
  else
    let doubleMap := b.mappedRange.size ≠ 0 ∧
      (b.mappedRange.size ≠ range.size ∨ b.mappedRange.offset ≠ range.offset)
    let b1 := if doubleMap then b.unmap.state else b
    let b2 := { b1 with mappedRange := range }
    if b2.hostVisible = false then
      let tmp := stagingGetBufferSubData b2.contents range.offset range.size
      { state := { b2 with tmpBuffer := tmp }, view := some tmp,
        result := Result.success, warned := decide doubleMap }
    else
      { state := b2, view := some (readBytes b2.contents range.offset range.size),
        result := Result.success, warned := decide doubleMap }

/-- The semantics of a caller writing d bytes through the pointer returned by
map: on the host-visible path the pointer aliases the coherent allocation at
the mapped offset, so the write is immediately live in device memory; on the
device-local path the pointer aliases the scratch buffer, so only tmpBuffer
changes. -/
def Buffer.writeMapped (b : Buffer) (d : List Nat) : Buffer :=
  if b.hostVisible then
    { b with contents := writeBytes b.contents b.mappedRange.offset d }
  else
    { b with tmpBuffer := writeBytes b.tmpBuffer 0 d }

/-- Output of Buffer::create: the returned Result, the backend allocation (or
none), the usage flags that were derived, and whether ctx.createBuffer was
reached. -/
structure BufferCreateOut where
  result : Result
  buffer : Option Buffer
  storage : ResourceStorage
  usageFlags : Nat
  allocRequested : Bool
deriving DecidableEq

/-- Buffer::create (Buffer.cpp lines 24-73): demotes Private to Shared when
the context lacks staging; derives transfer flags for Private storage; fails
with InvalidOperation on a zero usage-type bitmask before any allocation;
otherwise ORs in per-type usage flags, derives memory-property flags from the
storage tier and requests the allocation from the context (the context
allocator is an external collaborator modelled as succeeding with
zero-initialized contents). -/
def Buffer.create (ctx : VulkanContext) (desc0 : BufferDesc) : BufferCreateOut :=
  let desc :=
    if ctx.useStaging = false ∧ desc0.storage = ResourceStorage.Private then
      { desc0 with storage := ResourceStorage.Shared }
    else desc0
  let usageFlags0 :=
    if desc.storage = ResourceStorage.Private then
      VK_BUFFER_USAGE_TRANSFER_DST_BIT ||| VK_BUFFER_USAGE_TRANSFER_SRC_BIT
    else 0
  if desc.type = 0 then
    { result := { code := ResultCode.InvalidOperation, message := "Invalid buffer type" },
      buffer := none, storage := desc.storage, usageFlags := usageFlags0,
      allocRequested := false }
  else
    let usageFlags1 :=
      if desc.type &&& BufferTypeBits.Index ≠ 0 then
        usageFlags0 ||| VK_BUFFER_USAGE_INDEX_BUFFER_BIT
      else usageFlags0
    let usageFlags2 :=
      if desc.type &&& BufferTypeBits.Vertex ≠ 0 then
        usageFlags1 ||| VK_BUFFER_USAGE_VERTEX_BUFFER_BIT
      else usageFlags1
    let usageFlags3 :=
      if desc.type &&& BufferTypeBits.Uniform ≠ 0 then
        usageFlags2 ||| VK_BUFFER_USAGE_UNIFORM_BUFFER_BIT
          ||| VK_BUFFER_USAGE_SHADER_DEVICE_ADDRESS_BIT_KHR
      else usageFlags2
    let usageFlags4 :=
      if desc.type &&& BufferTypeBits.Storage ≠ 0 then
        usageFlags3 ||| VK_BUFFER_USAGE_STORAGE_BUFFER_BIT
          ||| VK_BUFFER_USAGE_TRANSFER_DST_BIT
          ||| VK_BUFFER_USAGE_SHADER_DEVICE_ADDRESS_BIT_KHR
      else usageFlags3
    let usageFlags5 :=
      if desc.type &&& BufferTypeBits.Indirect ≠ 0 then
        usageFlags4 ||| VK_BUFFER_USAGE_INDIRECT_BUFFER_BIT
          ||| VK_BUFFER_USAGE_SHADER_DEVICE_ADDRESS_BIT_KHR
      else usageFlags4
    let memFlags := resourceStorageToVkMemoryPropertyFlags desc.storage
    { result := Result.success,
      buffer := some
        { length := desc.length, storage := desc.storage,
          hostVisible := memFlags &&& VK_MEMORY_PROPERTY_HOST_VISIBLE_BIT != 0,
          contents := List.replicate desc.length 0,
          mappedRange := { size := 0, offset := 0 },
          tmpBuffer := [] },
      storage := desc.storage, usageFlags := usageFlags5, allocRequested := true }

/-- Output of Device::createBuffer: the returned handle (none = nullptr) and
the value written through outResult (none = the callee never wrote it). -/
structure DeviceCreateBufferOut where
  handle : Option Buffer
  written : Option Result
deriving DecidableEq

/-- Device::createBuffer (Device.cpp lines 67-86): constructs the buffer; on
create failure returns nullptr without touching outResult; with no initial
data returns the buffer without touching outResult; otherwise uploads the
initial data over the whole length and writes the upload result through
outResult. -/
def Device.createBuffer (ctx : VulkanContext) (desc : BufferDesc) : DeviceCreateBufferOut :=
  let created := Buffer.create ctx desc
  if created.result.isOk = false then
    { handle := none, written := none }
  else
    match created.buffer with
    | none => { handle := none, written := none }
    | some buffer =>
      match desc.data with
      | none => { handle := some buffer, written := none }
      | some d =>
        let up := buffer.upload (some d) { size := desc.length, offset := 0 }
        { handle := some up.state, written := some up.result }

/-- igl shader stages (Stage_Vertex, Stage_Fragment, Stage_Compute). -/
inductive ShaderStage where
  | Vertex
  | Fragment
  | Compute
deriving DecidableEq

/-- An IShaderStages set: which stage modules are present (a present module
is modelled as some ()). -/
structure ShaderStages where
  vertexModule : Option Unit
  fragmentModule : Option Unit
  computeModule : Option Unit
deriving DecidableEq

/-- IShaderStages::getModule(stage). -/
def ShaderStages.getModule (s : ShaderStages) : ShaderStage → Option Unit
  | ShaderStage.Vertex => s.vertexModule
  | ShaderStage.Fragment => s.fragmentModule
  | ShaderStage.Compute => s.computeModule

/-- igl::TextureFormat restricted to what the pipeline validation reads:
Invalid versus some concrete formats. -/
inductive TextureFormat where
  | Invalid
  | RGBA_UNorm8
  | Z_UNorm24
deriving DecidableEq

/-- The fields of RenderPipelineDesc consulted by createRenderPipeline: the
optional shader-stage set and the target attachment description. -/
structure RenderPipelineDesc where
  shaderStages : Option ShaderStages
  colorAttachments : List TextureFormat
  depthAttachmentFormat : TextureFormat
deriving DecidableEq

/-- Output of a pipeline factory call: the returned handle (none = nullptr)
and the value written through outResult (none = never written). -/
structure PipelineOut where
  handle : Option Unit
  written : Option Result
deriving DecidableEq

/-- Device::createRenderPipeline (Device.cpp lines 133-159): rejects a null
shader-stage set, then a target with neither a color attachment nor a valid
depth attachment, then a missing vertex module, then a missing fragment
module, each with ArgumentInvalid and a null handle; otherwise constructs
the pipeline state (outResult is not written on this path). -/
def Device.createRenderPipeline (desc : RenderPipelineDesc) : PipelineOut :=
  match desc.shaderStages with
  | none =>
    { handle := none,
      written := some { code := ResultCode.ArgumentInvalid, message := "Missing shader stages" } }
  | some stages =>
    let hasColorAttachments := !desc.colorAttachments.isEmpty
    let hasDepthAttachment := desc.depthAttachmentFormat != TextureFormat.Invalid
    let hasAnyAttachments := hasColorAttachments || hasDepthAttachment
    if !hasAnyAttachments then
      { handle := none,
        written := some { code := ResultCode.ArgumentInvalid,
                          message := "Need at least one attachment" } }
    else
      match stages.getModule ShaderStage.Vertex with
      | none =>
        { handle := none,
          written := some { code := ResultCode.ArgumentInvalid,
                            message := "Missing vertex shader" } }
      | some _ =>
        match stages.getModule ShaderStage.Fragment with
        | none =>
          { handle := none,
            written := some { code := ResultCode.ArgumentInvalid,
                              message := "Missing fragment shader" } }
        | some _ => { handle := some (), written := none }

/-- Whether pat occurs at the head of the text, character by character. -/
def leadsWith : List Char → List Char → Bool
  | [], _ => true
  | _ :: _, [] => false
  | a :: ps, b :: ls => a == b && leadsWith ps ls

/-- Whether pat occurs anywhere in the text: the semantics of C strstr
returning non-null. -/
def occursIn (pat : List Char) : List Char → Bool
  | [] => pat.isEmpty
  | c :: ls => leadsWith pat (c :: ls) || occursIn pat ls

/-- strstr(s, pat) != nullptr. -/
def strContains (s pat : String) : Bool := occursIn pat.data s.data

/-- The version marker createShaderModule searches the source for. -/
def versionMarker : String := "#version "

/-- The GL_EXT_debug_printf extension directive. -/
def debugPrintfDirective : String := "#extension GL_EXT_debug_printf : enable\n"

/-- The extraExtensions text conditionally inserted into the synthesized
header (Device.cpp lines 243-248); the debug-print directive is present only
when the VK_KHR_shader_non_semantic_info extension is enabled on the
context. -/
def extraExtensions (debugPrintfEnabled : Bool) : String :=
  if debugPrintfEnabled then debugPrintfDirective else ""

/-- The raw-string segment preceding extraExtensions in both headers
(Device.cpp lines 252-254 and 272-274). -/
def headerLead : String := "\n      #version 460\n      "

/-- The extension directives of the vertex/compute header (Device.cpp lines
256-259). -/
def vcDirectives : String :=
  "\n      #extension GL_EXT_nonuniform_qualifier : require\n" ++
  "      #extension GL_EXT_buffer_reference : require\n" ++
  "      #extension GL_EXT_buffer_reference_uvec2 : require\n" ++
  "      #extension GL_EXT_shader_explicit_arithmetic_types_float16 : require\n" ++
  "\n      "

/-- The fixed-size bindings block declaration, identical in both headers
(Device.cpp lines 261-265 and 288-292). -/
def bindingsBlock : String :=
  "layout (set = 1, binding = 0) uniform Bindings \x7b\n" ++
  "        // has to be tightly packed into `uvec4` because GL_EXT_scalar_block_layout is guaranteed only for Vulkan 1.2+\n" ++
  "        // texture (x), sampler (y), buffer (zw)\n" ++
  "        uvec4 slots[16]; // see ResourcesBinder::Slot\n" ++
  "      \x7d bindings;\n      "

/-- The getBuffer buffer-slot helper, identical in both headers (Device.cpp
lines 266-268 and 293-295). -/
def getBufferHelper : String :=
  "uvec2 getBuffer(uint slot) \x7b\n" ++
  "        return bindings.slots[slot].zw;\n" ++
  "      \x7d\n      "

/-- The vertex/compute header segment following extraExtensions (Device.cpp
lines 255-269): the bindings block and the getBuffer slot helper. -/
def vcHeaderBody : String :=
  vcDirectives ++ (bindingsBlock ++ getBufferHelper)

/-- The extension directives of the fragment header (Device.cpp lines
276-278). -/
def fragDirectives : String :=
  "\n      #extension GL_EXT_nonuniform_qualifier : require\n" ++
  "      #extension GL_EXT_buffer_reference_uvec2 : require\n" ++
  "      #extension GL_EXT_shader_explicit_arithmetic_types_float16 : require\n" ++
  "\n      "

/-- The unbounded texture and sampler descriptor-array declarations of the
fragment header (Device.cpp lines 280-286). -/
def fragTextureArrayDecls : String :=
  "layout (set = 0, binding = 0) uniform texture2D kTextures2D[];\n" ++
  "      layout (set = 0, binding = 1) uniform texture2DArray kTextures2DArray[];\n" ++
  "      layout (set = 0, binding = 2) uniform texture3D kTextures3D[];\n" ++
  "      layout (set = 0, binding = 3) uniform textureCube kTexturesCube[];\n" ++
  "      layout (set = 0, binding = 4) uniform sampler kSamplers[];\n" ++
  "      layout (set = 0, binding = 5) uniform samplerShadow kSamplersShadow[];\n" ++
  "      // binding #6 is reserved for STORAGE_IMAGEs: check VulkanContext.cpp\n" ++
  "\n      "

/-- The textureSize2D bindless helper (Device.cpp lines 296-301). -/
def fragHelperTextureSize2D : String :=
  "ivec2 textureSize2D(uint slotTexture, uint slotSampler) \x7b\n" ++
  "        uint idxTex = bindings.slots[slotTexture].x;\n" ++
  "        uint idxSmp = bindings.slots[slotSampler].y;\n" ++
  "        return textureSize(sampler2D(kTextures2D[nonuniformEXT(idxTex)],\n" ++
  "                                     kSamplers[nonuniformEXT(idxSmp)]), 0);\n" ++
  "      \x7d\n      "

/-- The textureSample2D bindless helper (Device.cpp lines 302-307). -/
def fragHelperTextureSample2D : String :=
  "vec4 textureSample2D(uint slotTexture, uint slotSampler, vec2 uv) \x7b\n" ++
  "        uint idxTex = bindings.slots[slotTexture].x;\n" ++
  "        uint idxSmp = bindings.slots[slotSampler].y;\n" ++
  "        return texture(sampler2D(kTextures2D[nonuniformEXT(idxTex)],\n" ++
  "                                 kSamplers[nonuniformEXT(idxSmp)]), uv);\n" ++
  "      \x7d\n      "

/-- The textureSample2DShadow bindless helper (Device.cpp lines 308-313). -/
def fragHelperTextureSample2DShadow : String :=
  "float textureSample2DShadow(uint slotTexture, uint slotSampler, vec3 uvw) \x7b\n" ++
  "        uint idxTex = bindings.slots[slotTexture].x;\n" ++
  "        uint idxSmp = bindings.slots[slotSampler].y;\n" ++
  "        return texture(sampler2DShadow(kTextures2D[nonuniformEXT(idxTex)],\n" ++
  "                                       kSamplersShadow[nonuniformEXT(idxSmp)]), uvw);\n" ++
  "      \x7d\n      "

/-- The textureSample2DArray bindless helper (Device.cpp lines 314-319). -/
def fragHelperTextureSample2DArray : String :=
  "vec4 textureSample2DArray(uint slotTexture, uint slotSampler, vec3 uvw) \x7b\n" ++
  "        uint idxTex = bindings.slots[slotTexture].x;\n" ++
  "        uint idxSmp = bindings.slots[slotSampler].y;\n" ++
  "        return texture(sampler2DArray(kTextures2DArray[nonuniformEXT(idxTex)],\n" ++
  "                                      kSamplers[nonuniformEXT(idxSmp)]), uvw);\n" ++
  "      \x7d\n      "

/-- The textureSampleCube bindless helper (Device.cpp lines 320-325). -/
def fragHelperTextureSampleCube : String :=
  "vec4 textureSampleCube(uint slotTexture, uint slotSampler, vec3 uvw) \x7b\n" ++
  "        uint idxTex = bindings.slots[slotTexture].x;\n" ++
  "        uint idxSmp = bindings.slots[slotSampler].y;\n" ++
  "        return texture(samplerCube(kTexturesCube[nonuniformEXT(idxTex)],\n" ++
  "                                   kSamplers[nonuniformEXT(idxSmp)]), uvw);\n" ++
  "      \x7d\n      "

/-- The textureSample3D bindless helper (Device.cpp lines 326-331). -/
def fragHelperTextureSample3D : String :=
  "vec4 textureSample3D(uint slotTexture, uint slotSampler, vec3 uvw) \x7b\n" ++
  "        uint idxTex = bindings.slots[slotTexture].x;\n" ++
  "        uint idxSmp = bindings.slots[slotSampler].y;\n" ++
  "        return texture(sampler3D(kTextures3D[nonuniformEXT(idxTex)],\n" ++
  "                                 kSamplers[nonuniformEXT(idxSmp)]), uvw);\n" ++
  "      \x7d\n      "

/-- The textureLod2D bindless helper (Device.cpp lines 332-337). -/
def fragHelperTextureLod2D : String :=
  "vec4 textureLod2D(uint slotTexture, uint slotSampler, vec3 uvw, float lod) \x7b\n" ++
  "        uint idxTex = bindings.slots[slotTexture].x;\n" ++
  "        uint idxSmp = bindings.slots[slotSampler].y;\n" ++
  "        return textureLod(samplerCube(kTexturesCube[nonuniformEXT(idxTex)],\n" ++
  "                                   kSamplers[nonuniformEXT(idxSmp)]), uvw, lod);\n" ++
  "      \x7d\n      "

/-- The fragment header segment following extraExtensions (Device.cpp lines
275-338): the unbounded texture and sampler descriptor arrays, the bindings
block, getBuffer and the bindless texture helper family. -/
def fragHeaderBody : String :=
  fragDirectives ++ (fragTextureArrayDecls ++ (bindingsBlock ++ (getBufferHelper ++
    (fragHelperTextureSize2D ++ (fragHelperTextureSample2D ++
    (fragHelperTextureSample2DShadow ++ (fragHelperTextureSample2DArray ++
    (fragHelperTextureSampleCube ++ (fragHelperTextureSample3D ++
    fragHelperTextureLod2D)))))))))

/-- The synthesized vertex/compute header (Device.cpp lines 251-270). -/
def vertexComputeHeader (debugPrintfEnabled : Bool) : String :=
  headerLead ++ extraExtensions debugPrintfEnabled ++ vcHeaderBody

/-- The synthesized fragment header (Device.cpp lines 271-339). -/
def fragmentHeader (debugPrintfEnabled : Bool) : String :=
  headerLead ++ extraExtensions debugPrintfEnabled ++ fragHeaderBody

/-- The stage-appropriate synthesized header. -/
def stageHeader (stage : ShaderStage) (debugPrintfEnabled : Bool) : String :=
  match stage with
  | ShaderStage.Vertex => vertexComputeHeader debugPrintfEnabled
  | ShaderStage.Compute => vertexComputeHeader debugPrintfEnabled
  | ShaderStage.Fragment => fragmentHeader debugPrintfEnabled

/-- What a createShaderModule call hands to the backend compiler: either raw
SPIR-V bytes (ivkCreateShaderModuleFromSPIRV), or GLSL text for a stage
(igl::vulkan::compileShader), or a rejection before any compiler runs. -/
inductive CompileInput where
  | spirvBinary (data : String)
  | glslSource (stage : ShaderStage) (source : String)
  | rejected (result : Result)
deriving DecidableEq

/-- The fields of ShaderModuleDesc the dispatch reads: the stage, the data
pointer (as text; the binary path forwards the same bytes opaquely), the
binary size (nonzero selects the binary path) and the debug name. -/
structure ShaderModuleDesc where
  stage : ShaderStage
  data : String
  dataSize : Nat
  debugName : String
deriving DecidableEq

/-- The text overload of Device::createShaderModule (Device.cpp lines
226-364), reduced to the source text it submits to the compiler: an empty
source is rejected with ArgumentNull; a source without the version marker
has the stage-appropriate header prepended; otherwise the source is
compiled unmodified. -/
def Device.createShaderModuleFromText (debugPrintfEnabled : Bool) (stage : ShaderStage)
    (source : String) : CompileInput :=
  if source = "" then
    CompileInput.rejected { code := ResultCode.ArgumentNull, message := "Shader source is empty" }
  else if strContains source versionMarker = false then
    CompileInput.glslSource stage (stageHeader stage debugPrintfEnabled ++ source)
  else
    CompileInput.glslSource stage source

/-- The dispatching Device::createShaderModule (Device.cpp lines 161-179):
a nonzero dataSize selects the binary path, which hands the bytes unmodified
to ivkCreateShaderModuleFromSPIRV; otherwise the text path runs. -/
def Device.createShaderModule (debugPrintfEnabled : Bool)
    (desc : ShaderModuleDesc) : CompileInput :=
  if desc.dataSize ≠ 0 then
    CompileInput.spirvBinary desc.data
  else
    Device.createShaderModuleFromText debugPrintfEnabled desc.stage desc.data

/-- VkFormatProperties: the three per-format feature-flag words the backend
reports (vkGetPhysicalDeviceFormatProperties). -/
structure VkFormatProperties where
  bufferFeatures : Nat
  linearTilingFeatures : Nat
  optimalTilingFeatures : Nat
deriving DecidableEq

/-- Vulkan format-feature flag bits (vulkan_core.h values). -/
def VK_FORMAT_FEATURE_SAMPLED_IMAGE_BIT : Nat := 0x00000001
def VK_FORMAT_FEATURE_STORAGE_IMAGE_BIT : Nat := 0x00000002
def VK_FORMAT_FEATURE_COLOR_ATTACHMENT_BIT : Nat := 0x00000080
def VK_FORMAT_FEATURE_DEPTH_STENCIL_ATTACHMENT_BIT : Nat := 0x00000200
def VK_FORMAT_FEATURE_SAMPLED_IMAGE_FILTER_LINEAR_BIT : Nat := 0x00001000

/-- Modelled from the spec: ICapabilities::TextureFormatCapabilityBits (the
interface header is not under src). Unsupported is the empty bitmask and the
remaining capabilities are distinct bits of the per-format capability
bitmask (spec section 3). -/
def TextureFormatCapabilityBits.Unsupported : Nat := 0
def TextureFormatCapabilityBits.Sampled : Nat := 1
def TextureFormatCapabilityBits.SampledFiltered : Nat := 2
def TextureFormatCapabilityBits.Storage : Nat := 4
def TextureFormatCapabilityBits.Attachment : Nat := 8
def TextureFormatCapabilityBits.SampledAttachment : Nat := 16

/-- The static helper contains (Device.cpp lines 436-439). -/
def containsBits (value flag : Nat) : Bool := value &&& flag == flag

/-- Device::getTextureFormatCapabilities (Device.cpp lines 441-481). The
format argument is represented by what the function extracts from it: none
models a format whose textureFormatToVkFormat is VK_FORMAT_UNDEFINED (no
native backend equivalent); some carries the VkFormatProperties the hardware
reports for the native format. -/
def Device.getTextureFormatCapabilities (fmt : Option VkFormatProperties) : Nat :=
  match fmt with
  | none => TextureFormatCapabilityBits.Unsupported
  | some properties =>
    let features := properties.bufferFeatures ||| properties.linearTilingFeatures |||
      properties.optimalTilingFeatures
    let caps := TextureFormatCapabilityBits.Unsupported
    let caps := if features &&& VK_FORMAT_FEATURE_SAMPLED_IMAGE_BIT != 0 then
        caps ||| TextureFormatCapabilityBits.Sampled else caps
    let caps := if features &&& VK_FORMAT_FEATURE_STORAGE_IMAGE_BIT != 0 then
        caps ||| TextureFormatCapabilityBits.Storage else caps
    let caps := if features &&& VK_FORMAT_FEATURE_SAMPLED_IMAGE_FILTER_LINEAR_BIT != 0 then
        caps ||| TextureFormatCapabilityBits.SampledFiltered else caps
    let caps := if features &&& VK_FORMAT_FEATURE_COLOR_ATTACHMENT_BIT != 0 then
        caps ||| TextureFormatCapabilityBits.Attachment else caps
    let caps := if features &&& VK_FORMAT_FEATURE_DEPTH_STENCIL_ATTACHMENT_BIT != 0 then
        caps ||| TextureFormatCapabilityBits.Attachment else caps
    let caps := if containsBits caps TextureFormatCapabilityBits.Sampled &&
        containsBits caps TextureFormatCapabilityBits.Attachment then
        caps ||| TextureFormatCapabilityBits.SampledAttachment else caps
    caps

end vulkan

end igl

open igl igl.vulkan

/-! Concrete buffers and descriptors used by the witness theorems. -/

/-- A device-local four-byte buffer in the unmapped state. -/
def sampleDeviceBuffer : igl.vulkan.Buffer :=
  { length := 4, storage := igl.ResourceStorage.Private, hostVisible := false,
    contents := [10, 11, 12, 13], mappedRange := { size := 0, offset := 0 }, tmpBuffer := [] }

/-- A device-local four-byte buffer with an active mapping of the two bytes
at offset 0 whose scratch buffer holds pending writes. -/
def sampleMappedBuffer : igl.vulkan.Buffer :=
  { length := 4, storage := igl.ResourceStorage.Private, hostVisible := false,
    contents := [10, 11, 12, 13], mappedRange := { size := 2, offset := 0 },
    tmpBuffer := [20, 21] }

/-- A buffer descriptor carrying initial data, used by the witness for the
createBuffer result-propagation theorem. -/
def sampleDataDesc : igl.BufferDesc :=
  { data := some [1, 2], length := 2, type := igl.BufferTypeBits.Uniform,
    storage := igl.ResourceStorage.Shared, debugName := "" }

/-! Soundness and completeness of the substring checker, so that containment
facts about the synthesized shader headers can be settled by exhibiting the
split rather than by kernel-evaluating a scan of the whole header. -/

theorem leadsWith_self_append (p l : List Char) : leadsWith p (p ++ l) = true := by
  induction p with
  | nil => rfl
  | cons a ps ih => simp [leadsWith, ih]

theorem leadsWith_eq_true_iff (p l : List Char) :
    leadsWith p l = true ↔ ∃ t, l = p ++ t := by
  induction p generalizing l with
  | nil => simp [leadsWith]
  | cons a ps ih =>
    cases l with
    | nil => simp [leadsWith]
    | cons b ls =>
      simp only [leadsWith, Bool.and_eq_true, beq_iff_eq, ih, List.cons_append,
        List.cons.injEq]
      constructor
      · rintro ⟨hab, t, ht⟩
        exact ⟨t, hab.symm, ht⟩
      · rintro ⟨t, hab, ht⟩
        exact ⟨hab.symm, t, ht⟩

theorem occursIn_eq_true_iff (p s : List Char) :
    occursIn p s = true ↔ ∃ a b, s = a ++ (p ++ b) := by
  induction s with
  | nil =>
    simp only [occursIn, List.isEmpty_iff]
    constructor
    · intro hp
      exact ⟨[], [], by simp [hp]⟩
    · rintro ⟨a, b, hab⟩
      rcases List.append_eq_nil.mp hab.symm with ⟨ha, hpb⟩
      exact (List.append_eq_nil.mp hpb).1
  | cons c ls ih =>
    simp only [occursIn, Bool.or_eq_true, leadsWith_eq_true_iff, ih]
    constructor
    · rintro (⟨t, ht⟩ | ⟨a, b, hab⟩)
      · exact ⟨[], t, by simpa using ht⟩
      · exact ⟨c :: a, b, by simp [hab]⟩
    · rintro ⟨a, b, hab⟩
      cases a with
      | nil => exact Or.inl ⟨b, by simpa using hab⟩
      | cons a0 as =>
        simp only [List.cons_append, List.cons.injEq] at hab
        exact Or.inr ⟨as, b, hab.2⟩

theorem strContains_iff (s pat : String) :
    strContains s pat = true ↔ ∃ a b, s.data = a ++ (pat.data ++ b) :=
  occursIn_eq_true_iff pat.data s.data

theorem strContains_self (pat : String) : strContains pat pat = true :=
  (strContains_iff pat pat).mpr ⟨[], [], by simp⟩

theorem strContains_append_left (x y pat : String) (h : strContains x pat = true) :
    strContains (x ++ y) pat = true := by
  rcases (strContains_iff x pat).mp h with ⟨a, b, hab⟩
  exact (strContains_iff (x ++ y) pat).mpr
    ⟨a, b ++ y.data, by simp [String.data_append, hab]⟩

theorem strContains_append_right (x y pat : String) (h : strContains y pat = true) :
    strContains (x ++ y) pat = true := by
  rcases (strContains_iff y pat).mp h with ⟨a, b, hab⟩
  exact (strContains_iff (x ++ y) pat).mpr
    ⟨x.data ++ a, b, by simp [String.data_append, hab]⟩

theorem strContains_trans (s t pat : String) (hst : strContains s t = true)
    (htp : strContains t pat = true) : strContains s pat = true := by
  rcases (strContains_iff s t).mp hst with ⟨a, b, hab⟩
  rcases (strContains_iff t pat).mp htp with ⟨c, d, hcd⟩
  exact (strContains_iff s pat).mpr ⟨a ++ c, d ++ b, by simp [hab, hcd]⟩

/-! Facts about reading and writing byte ranges of device memory. -/

theorem writeBytes_length (l d : List Nat) (off : Nat) (h : off + d.length ≤ l.length) :
    (writeBytes l off d).length = l.length := by
  simp only [writeBytes, List.length_append, List.length_take, List.length_drop]
  omega

theorem readBytes_length (l : List Nat) (off sz : Nat) (h : off + sz ≤ l.length) :
    (readBytes l off sz).length = sz := by
  simp only [readBytes, List.length_take, List.length_drop]
  omega

theorem readBytes_writeBytes (l d : List Nat) (off : Nat) (h : off + d.length ≤ l.length) :
    readBytes (writeBytes l off d) off d.length = d := by
  unfold readBytes writeBytes
  have htake : (l.take off).length = off := by
    simp only [List.length_take]
    omega
  rw [List.drop_left' htake, List.take_left' rfl]

theorem writeBytes_readBytes (l : List Nat) (off sz : Nat) (h : off + sz ≤ l.length) :
    writeBytes l off (readBytes l off sz) = l := by
  unfold readBytes writeBytes
  have hlen : ((l.drop off).take sz).length = sz := by
    simp only [List.length_take, List.length_drop]
    omega
  rw [hlen]
  have h2 : l.drop (off + sz) = (l.drop off).drop sz := by
    rw [List.drop_drop, Nat.add_comm]
  rw [h2, List.take_append_drop, List.take_append_drop]

/-! Containment facts about the synthesized shader headers. -/

theorem vcHeaderBody_contains_bindings : strContains vcHeaderBody bindingsBlock = true := by
  unfold vcHeaderBody
  apply strContains_append_right
  apply strContains_append_left
  exact strContains_self _

theorem vcHeaderBody_contains_getBuffer : strContains vcHeaderBody getBufferHelper = true := by
  unfold vcHeaderBody
  apply strContains_append_right
  apply strContains_append_right
  exact strContains_self _

theorem fragHeaderBody_contains_arrays :
    strContains fragHeaderBody fragTextureArrayDecls = true := by
  unfold fragHeaderBody
  apply strContains_append_right
  apply strContains_append_left
  exact strContains_self _

theorem fragHeaderBody_contains_bindings : strContains fragHeaderBody bindingsBlock = true := by
  unfold fragHeaderBody
  apply strContains_append_right
  apply strContains_append_right
  apply strContains_append_left
  exact strContains_self _

theorem fragHeaderBody_contains_getBuffer :
    strContains fragHeaderBody getBufferHelper = true := by
  unfold fragHeaderBody
  apply strContains_append_right
  apply strContains_append_right
  apply strContains_append_right
  apply strContains_append_left
  exact strContains_self _

theorem fragHeaderBody_contains_size2D :
    strContains fragHeaderBody fragHelperTextureSize2D = true := by
  unfold fragHeaderBody
  apply strContains_append_right
  apply strContains_append_right
  apply strContains_append_right
  apply strContains_append_right
  apply strContains_append_left
  exact strContains_self _

theorem fragHeaderBody_contains_sample2D :
    strContains fragHeaderBody fragHelperTextureSample2D = true := by
  unfold fragHeaderBody
  apply strContains_append_right
  apply strContains_append_right
  apply strContains_append_right
  apply strContains_append_right
  apply strContains_append_right
  apply strContains_append_left
  exact strContains_self _

theorem fragHeaderBody_contains_sample2DShadow :
    strContains fragHeaderBody fragHelperTextureSample2DShadow = true := by
  unfold fragHeaderBody
  apply strContains_append_right
  apply strContains_append_right
  apply strContains_append_right
  apply strContains_append_right
  apply strContains_append_right
  apply strContains_append_right
  apply strContains_append_left
  exact strContains_self _

theorem fragHeaderBody_contains_sample2DArray :
    strContains fragHeaderBody fragHelperTextureSample2DArray = true := by
  unfold fragHeaderBody
  apply strContains_append_right
  apply strContains_append_right
  apply strContains_append_right
  apply strContains_append_right
  apply strContains_append_right
  apply strContains_append_right
  apply strContains_append_right
  apply strContains_append_left
  exact strContains_self _

theorem fragHeaderBody_contains_sampleCube :
    strContains fragHeaderBody fragHelperTextureSampleCube = true := by
  unfold fragHeaderBody
  apply strContains_append_right
  apply strContains_append_right
  apply strContains_append_right
  apply strContains_append_right
  apply strContains_append_right
  apply strContains_append_right
  apply strContains_append_right
  apply strContains_append_right
  apply strContains_append_left
  exact strContains_self _

theorem fragHeaderBody_contains_sample3D :
    strContains fragHeaderBody fragHelperTextureSample3D = true := by
  unfold fragHeaderBody
  apply strContains_append_right
  apply strContains_append_right
  apply strContains_append_right
  apply strContains_append_right
  apply strContains_append_right
  apply strContains_append_right
  apply strContains_append_right
  apply strContains_append_right
  apply strContains_append_right
  apply strContains_append_left
  exact strContains_self _

theorem fragHeaderBody_contains_lod2D :
    strContains fragHeaderBody fragHelperTextureLod2D = true := by
  unfold fragHeaderBody
  apply strContains_append_right
  apply strContains_append_right
  apply strContains_append_right
  apply strContains_append_right
  apply strContains_append_right
  apply strContains_append_right
  apply strContains_append_right
  apply strContains_append_right
  apply strContains_append_right
  apply strContains_append_right
  exact strContains_self _

theorem vertexComputeHeader_contains (dp : Bool) (pat : String)
    (h : strContains vcHeaderBody pat = true) :
    strContains (vertexComputeHeader dp) pat = true := by
  unfold vertexComputeHeader
  exact strContains_append_right _ _ _ h

theorem fragmentHeader_contains (dp : Bool) (pat : String)
    (h : strContains fragHeaderBody pat = true) :
    strContains (fragmentHeader dp) pat = true := by
  unfold fragmentHeader
  exact strContains_append_right _ _ _ h

set_option maxRecDepth 1000000 in
set_option maxHeartbeats 2000000 in
theorem vcHeader_no_directive :
    strContains (vertexComputeHeader false) debugPrintfDirective = false := by
  decide

set_option maxRecDepth 2000000 in
set_option maxHeartbeats 8000000 in
theorem fragHeader_no_directive :
    strContains (fragmentHeader false) debugPrintfDirective = false := by
  decide

theorem stageHeader_directive_iff (stage : ShaderStage) (dp : Bool) :
    strContains (stageHeader stage dp) debugPrintfDirective = dp := by
  cases dp
  · cases stage
    case Vertex => exact vcHeader_no_directive
    case Compute => exact vcHeader_no_directive
    case Fragment => exact fragHeader_no_directive
  · cases stage
    case Vertex =>
      unfold stageHeader vertexComputeHeader
      apply strContains_append_left
      apply strContains_append_right
      exact strContains_self _
    case Compute =>
      unfold stageHeader vertexComputeHeader
      apply strContains_append_left
      apply strContains_append_right
      exact strContains_self _
    case Fragment =>
      unfold stageHeader fragmentHeader
      apply strContains_append_left
      apply strContains_append_right
      exact strContains_self _

/-- C1: for every buffer, upload(data, range) with a non-null data pointer
fails with ArgumentOutOfRange iff range.offset + range.size exceeds the
buffer length; otherwise it returns success and the transfer is delegated to
the staging engine, after which the readable contents at the range equal the
uploaded data, both as a direct slice of device memory and through the view
returned by a subsequent map, on the host-visible as well as the
device-local storage tier. -/
theorem upload_range_check_and_readback (b : igl.vulkan.Buffer) (data : List Nat)
    (r : igl.BufferRange)
    (hwf : b.contents.length = b.length) (hdata : data.length = r.size)
    (hunmapped : b.mappedRange.size = 0) :
    ((b.upload (some data) r).result.code = ResultCode.ArgumentOutOfRange ↔
      r.offset + r.size > b.length) ∧
    (r.offset + r.size ≤ b.length →
      (b.upload (some data) r).result = Result.success ∧
      readBytes (b.upload (some data) r).state.contents r.offset r.size = data ∧
      ((b.upload (some data) r).state.map r).view = some data) := by
  have htk : data.take r.size = data := by
    rw [← hdata]
    exact List.take_length data
  constructor
  · constructor
    · intro hcode
      by_contra hgt
      push_neg at hgt
      simp [Buffer.upload, hgt, Result.success] at hcode
    · intro hgt
      have hno : ¬ (r.offset + r.size ≤ b.length) := by omega
      simp [Buffer.upload, hno]
  · intro hle
    have hsucc : b.upload (some data) r =
        { state := { b with contents := writeBytes b.contents r.offset data },
          result := Result.success } := by
      simp [Buffer.upload, hle, stagingBufferSubData, htk]
    have hbound : r.offset + data.length ≤ b.contents.length := by omega
    have hread : readBytes (writeBytes b.contents r.offset data) r.offset r.size = data := by
      rw [← hdata]
      exact readBytes_writeBytes b.contents data r.offset hbound
    rw [hsucc]
    refine ⟨rfl, hread, ?_⟩
    have hwf2 : (writeBytes b.contents r.offset data).length = b.length := by
      rw [writeBytes_length b.contents data r.offset hbound]
      exact hwf
    have hcond : ¬ ((r.size > b.length) ∨ (r.offset > b.length - r.size)) := by omega
    simp only [Buffer.map, hcond, if_false]
    simp [hunmapped, stagingGetBufferSubData]
    cases hv : b.hostVisible <;> simp [hv, hread]

/-- Witness for the C1 theorem at a device-local buffer of length four, a
two-byte upload at offset one. -/
theorem upload_range_check_and_readback_witness :
    ((sampleDeviceBuffer.upload (some [7, 8]) { size := 2, offset := 1 }).result.code =
        ResultCode.ArgumentOutOfRange ↔ 1 + 2 > 4) ∧
    (1 + 2 ≤ 4 →
      (sampleDeviceBuffer.upload (some [7, 8]) { size := 2, offset := 1 }).result =
        Result.success ∧
      readBytes (sampleDeviceBuffer.upload (some [7, 8])
          { size := 2, offset := 1 }).state.contents 1 2 = [7, 8] ∧
      ((sampleDeviceBuffer.upload (some [7, 8]) { size := 2, offset := 1 }).state.map
          { size := 2, offset := 1 }).view = some [7, 8]) :=
  upload_range_check_and_readback sampleDeviceBuffer [7, 8] { size := 2, offset := 1 }
    rfl rfl rfl

/-- C2: for every buffer with no active mapping and every in-bounds range,
map(range) immediately followed by unmap() with no intervening write through
the returned pointer leaves the buffer contents unchanged and clears the
mapped-range marker; on the device-local path this holds because map
downloads exactly the bytes of the range into the scratch buffer and unmap
writes those same bytes back at the mapped offset. -/
theorem map_unmap_no_write_preserves_contents (b : igl.vulkan.Buffer) (r : igl.BufferRange)
    (hwf : b.contents.length = b.length) (hunmapped : b.mappedRange.size = 0)
    (hsz : r.size ≤ b.length) (hle : r.offset + r.size ≤ b.length) :
    (b.map r).result = Result.success ∧
    (b.hostVisible = false →
      (b.map r).state.tmpBuffer = readBytes b.contents r.offset r.size) ∧
    ((b.map r).state.unmap).state.contents = b.contents ∧
    ((b.map r).state.unmap).state.mappedRange.size = 0 := by
  have hcond : ¬ ((r.size > b.length) ∨ (r.offset > b.length - r.size)) := by omega
  cases hv : b.hostVisible
  case false =>
    have hmap : b.map r =
        ⟨{ b with mappedRange := r, tmpBuffer := readBytes b.contents r.offset r.size },
          some (readBytes b.contents r.offset r.size), Result.success, false⟩ := by
      simp [Buffer.map, hcond, hunmapped, hv, stagingGetBufferSubData]
    rw [hmap]
    have hlen : (readBytes b.contents r.offset r.size).length = r.size :=
      readBytes_length _ _ _ (by omega)
    have hup : r.offset + (readBytes b.contents r.offset r.size).length ≤ b.length := by
      rw [hlen]; omega
    have htk : (readBytes b.contents r.offset r.size).take
        (readBytes b.contents r.offset r.size).length = readBytes b.contents r.offset r.size :=
      List.take_length _
    refine ⟨rfl, fun _ => rfl, ?_, ?_⟩
    · simp [Buffer.unmap, hv, Buffer.upload, hup, stagingBufferSubData, htk]
      exact writeBytes_readBytes b.contents r.offset r.size (by omega)
    · simp [Buffer.unmap, hv, Buffer.upload, hup]
  case true =>
    have hmap : b.map r =
        ⟨{ b with mappedRange := r },
          some (readBytes b.contents r.offset r.size), Result.success, false⟩ := by
      simp [Buffer.map, hcond, hunmapped, hv]
    rw [hmap]
    refine ⟨rfl, ?_, ?_, ?_⟩
    · intro hc
      exact absurd hc (by decide)
    · simp [Buffer.unmap, hv]
    · simp [Buffer.unmap, hv]

/-- Witness for the C2 theorem at a device-local buffer of length four and
the two-byte range at offset one. -/
theorem map_unmap_no_write_preserves_contents_witness :
    (sampleDeviceBuffer.map { size := 2, offset := 1 }).result = Result.success ∧
    (sampleDeviceBuffer.hostVisible = false →
      (sampleDeviceBuffer.map { size := 2, offset := 1 }).state.tmpBuffer =
        readBytes sampleDeviceBuffer.contents 1 2) ∧
    ((sampleDeviceBuffer.map { size := 2, offset := 1 }).state.unmap).state.contents =
      sampleDeviceBuffer.contents ∧
    ((sampleDeviceBuffer.map { size := 2, offset := 1 }).state.unmap).state.mappedRange.size =
      0 :=
  map_unmap_no_write_preserves_contents sampleDeviceBuffer { size := 2, offset := 1 }
    rfl rfl (by decide) (by decide)

/-- C3: calling map on a buffer with an active mapping, with a range whose
size or offset differs from the mapped one, raises the assertion-level
double-map warning, still succeeds, and implicitly closes the first mapping
before establishing the second: on the device-local path the scratch
contents are written back to the device at the first mapping offset, while
on the host-visible path no write-back is needed. -/
theorem map_different_range_warns_and_finalizes (b : igl.vulkan.Buffer) (r : igl.BufferRange)
    (hwf : b.contents.length = b.length) (hactive : b.mappedRange.size ≠ 0)
    (hdiff : b.mappedRange.size ≠ r.size ∨ b.mappedRange.offset ≠ r.offset)
    (hold : b.mappedRange.offset + b.tmpBuffer.length ≤ b.length)
    (hsz : r.size ≤ b.length) (hle : r.offset + r.size ≤ b.length) :
    (b.map r).warned = true ∧
    (b.map r).result = Result.success ∧
    (b.map r).state.mappedRange = r ∧
    (b.hostVisible = false →
      (b.map r).state.contents = writeBytes b.contents b.mappedRange.offset b.tmpBuffer) ∧
    (b.hostVisible = true → (b.map r).state.contents = b.contents) := by
  have hcond : ¬ ((r.size > b.length) ∨ (r.offset > b.length - r.size)) := by omega
  have hdm : b.mappedRange.size ≠ 0 ∧
      (b.mappedRange.size ≠ r.size ∨ b.mappedRange.offset ≠ r.offset) := ⟨hactive, hdiff⟩
  have htk : b.tmpBuffer.take b.tmpBuffer.length = b.tmpBuffer := List.take_length _
  cases hv : b.hostVisible
  case false =>
    have hunm : b.unmap.state =
        { b with
            contents := writeBytes b.contents b.mappedRange.offset b.tmpBuffer
            mappedRange := { b.mappedRange with size := 0 } } := by
      simp [Buffer.unmap, hv, Buffer.upload, hold, stagingBufferSubData, htk]
    simp only [Buffer.map, hcond, if_false, ite_false]
    rw [if_pos hdm, hunm]
    simp [hv, stagingGetBufferSubData, hdm]
  case true =>
    have hunm : b.unmap.state = { b with mappedRange := { b.mappedRange with size := 0 } } := by
      simp [Buffer.unmap, hv]
    simp only [Buffer.map, hcond, if_false, ite_false]
    rw [if_pos hdm, hunm]
    simp [hv, hdm]

/-- Witness for the C3 theorem: a device-local buffer with the two bytes at
offset zero actively mapped and pending scratch writes, remapped at the
different one-byte range at offset two. -/
theorem map_different_range_warns_and_finalizes_witness :
    (sampleMappedBuffer.map { size := 1, offset := 2 }).warned = true ∧
    (sampleMappedBuffer.map { size := 1, offset := 2 }).result = Result.success ∧
    (sampleMappedBuffer.map { size := 1, offset := 2 }).state.mappedRange =
      { size := 1, offset := 2 } ∧
    (sampleMappedBuffer.hostVisible = false →
      (sampleMappedBuffer.map { size := 1, offset := 2 }).state.contents =
        writeBytes sampleMappedBuffer.contents sampleMappedBuffer.mappedRange.offset
          sampleMappedBuffer.tmpBuffer) ∧
    (sampleMappedBuffer.hostVisible = true →
      (sampleMappedBuffer.map { size := 1, offset := 2 }).state.contents =
        sampleMappedBuffer.contents) :=
  map_different_range_warns_and_finalizes sampleMappedBuffer { size := 1, offset := 2 }
    rfl (by decide) (Or.inl (by decide)) (by decide) (by decide) (by decide)

/-- C4: for every buffer descriptor whose usage-type bitmask is zero,
Buffer::create fails with InvalidOperation without reaching the backend
allocation call and yields no backend buffer, and Device::createBuffer
returns a null handle, so no resource is constructed. -/
theorem createBuffer_zero_usage_type_rejected (ctx : igl.VulkanContext)
    (desc : igl.BufferDesc) (h : desc.type = 0) :
    (Buffer.create ctx desc).result.code = ResultCode.InvalidOperation ∧
    (Buffer.create ctx desc).allocRequested = false ∧
    (Buffer.create ctx desc).buffer = none ∧
    (Device.createBuffer ctx desc).handle = none := by
  by_cases hc : ctx.useStaging = false ∧ desc.storage = ResourceStorage.Private <;>
    simp [Buffer.create, Device.createBuffer, Result.isOk, hc, h]

/-- Witness for the C4 theorem at a zero-type Private descriptor. -/
theorem createBuffer_zero_usage_type_rejected_witness :
    (Buffer.create { useStaging := true }
        { data := none, length := 8, type := 0,
          storage := ResourceStorage.Private, debugName := "buf" }).result.code =
      ResultCode.InvalidOperation ∧
    (Buffer.create { useStaging := true }
        { data := none, length := 8, type := 0,
          storage := ResourceStorage.Private, debugName := "buf" }).allocRequested = false ∧
    (Buffer.create { useStaging := true }
        { data := none, length := 8, type := 0,
          storage := ResourceStorage.Private, debugName := "buf" }).buffer = none ∧
    (Device.createBuffer { useStaging := true }
        { data := none, length := 8, type := 0,
          storage := ResourceStorage.Private, debugName := "buf" }).handle = none :=
  createBuffer_zero_usage_type_rejected { useStaging := true }
    { data := none, length := 8, type := 0,
      storage := ResourceStorage.Private, debugName := "buf" } rfl

/-- C5: createRenderPipeline returns a null handle with an ArgumentInvalid
result whenever the shader-stage set is absent, or neither a color nor a
depth attachment is specified, or no vertex-stage module is present, or no
fragment-stage module is present; in particular a missing vertex module
fails regardless of attachments and a missing attachment set fails
regardless of shader stages, always with ArgumentInvalid. -/
theorem createRenderPipeline_structural_validation (desc : igl.vulkan.RenderPipelineDesc)
    (h : desc.shaderStages = none ∨
      (desc.colorAttachments = [] ∧ desc.depthAttachmentFormat = TextureFormat.Invalid) ∨
      (∀ s, desc.shaderStages = some s → s.getModule ShaderStage.Vertex = none) ∨
      (∀ s, desc.shaderStages = some s → s.getModule ShaderStage.Fragment = none)) :
    (Device.createRenderPipeline desc).handle = none ∧
    ∃ r, (Device.createRenderPipeline desc).written = some r ∧
      r.code = ResultCode.ArgumentInvalid := by
  cases hs : desc.shaderStages with
  | none => simp [Device.createRenderPipeline, hs]
  | some stages =>
    by_cases hA : desc.colorAttachments = [] ∧ desc.depthAttachmentFormat = TextureFormat.Invalid
    · simp [Device.createRenderPipeline, hs, hA.1, hA.2, List.isEmpty_iff]
    · cases hv : stages.getModule ShaderStage.Vertex with
      | none =>
        rcases Decidable.em (desc.colorAttachments.isEmpty = true) with he | he <;>
          simp [Device.createRenderPipeline, hs, hv, he] <;>
          first
          | rfl
          | (split <;> simp)
      | some v =>
        cases hf : stages.getModule ShaderStage.Fragment with
        | none =>
          rcases Decidable.em (desc.colorAttachments.isEmpty = true) with he | he <;>
            simp [Device.createRenderPipeline, hs, hv, hf, he] <;>
            first
            | rfl
            | (split <;> simp)
        | some f =>
          exfalso
          rcases h with h1 | h2 | h3 | h4
          · rw [hs] at h1
            exact Option.noConfusion h1
          · exact hA h2
          · rw [h3 stages hs] at hv
            exact Option.noConfusion hv
          · rw [h4 stages hs] at hf
            exact Option.noConfusion hf

/-- Witness for the C5 theorem at a descriptor with a color attachment and a
stage set lacking its vertex module. -/
theorem createRenderPipeline_structural_validation_witness :
    (Device.createRenderPipeline
        { shaderStages := some
            { vertexModule := none, fragmentModule := some (), computeModule := none },
          colorAttachments := [TextureFormat.RGBA_UNorm8],
          depthAttachmentFormat := TextureFormat.Invalid }).handle = none ∧
    ∃ r, (Device.createRenderPipeline
        { shaderStages := some
            { vertexModule := none, fragmentModule := some (), computeModule := none },
          colorAttachments := [TextureFormat.RGBA_UNorm8],
          depthAttachmentFormat := TextureFormat.Invalid }).written = some r ∧
      r.code = ResultCode.ArgumentInvalid :=
  createRenderPipeline_structural_validation
    { shaderStages := some
        { vertexModule := none, fragmentModule := some (), computeModule := none },
      colorAttachments := [TextureFormat.RGBA_UNorm8],
      depthAttachmentFormat := TextureFormat.Invalid }
    (Or.inr (Or.inr (Or.inl (fun s hs => by cases hs; rfl))))

/-- C6: a binary shader module is handed unmodified to the SPIR-V entry
point; a text module with the version marker in its source is compiled
unmodified; a non-empty text module without the marker is compiled with the
stage-appropriate synthesized header prepended to the caller source, where
the vertex and compute header declares the fixed-size bindings block and
the getBuffer slot helper, the fragment header additionally declares the
unbounded texture and sampler descriptor arrays and the
textureSize2D/textureSample2D/textureSample2DShadow/textureSample2DArray/
textureSampleCube/textureSample3D/textureLod2D helper family, and the
debug-print extension directive appears in a header exactly when the
backend capability is enabled. -/
theorem createShaderModule_header_synthesis (dp : Bool) (stage : ShaderStage)
    (desc : igl.vulkan.ShaderModuleDesc) :
    (desc.dataSize ≠ 0 →
      Device.createShaderModule dp desc = CompileInput.spirvBinary desc.data) ∧
    (desc.dataSize = 0 → desc.data ≠ "" → strContains desc.data versionMarker = false →
      Device.createShaderModule dp desc =
        CompileInput.glslSource desc.stage (stageHeader desc.stage dp ++ desc.data)) ∧
    (desc.dataSize = 0 → desc.data ≠ "" → strContains desc.data versionMarker = true →
      Device.createShaderModule dp desc = CompileInput.glslSource desc.stage desc.data) ∧
    strContains (stageHeader stage dp) bindingsBlock = true ∧
    strContains (stageHeader stage dp) getBufferHelper = true ∧
    strContains (fragmentHeader dp) fragTextureArrayDecls = true ∧
    strContains (fragmentHeader dp) fragHelperTextureSize2D = true ∧
    strContains (fragmentHeader dp) fragHelperTextureSample2D = true ∧
    strContains (fragmentHeader dp) fragHelperTextureSample2DShadow = true ∧
    strContains (fragmentHeader dp) fragHelperTextureSample2DArray = true ∧
    strContains (fragmentHeader dp) fragHelperTextureSampleCube = true ∧
    strContains (fragmentHeader dp) fragHelperTextureSample3D = true ∧
    strContains (fragmentHeader dp) fragHelperTextureLod2D = true ∧
    strContains (fragmentHeader dp) "ivec2 textureSize2D(" = true ∧
    strContains (fragmentHeader dp) "vec4 textureSample2D(" = true ∧
    strContains (fragmentHeader dp) "float textureSample2DShadow(" = true ∧
    strContains (fragmentHeader dp) "vec4 textureSample2DArray(" = true ∧
    strContains (fragmentHeader dp) "vec4 textureSampleCube(" = true ∧
    strContains (fragmentHeader dp) "vec4 textureSample3D(" = true ∧
    strContains (fragmentHeader dp) "vec4 textureLod2D(" = true ∧
    strContains (stageHeader stage dp) debugPrintfDirective = dp := by
  refine ⟨?_, ?_, ?_, ?_, ?_, ?_, ?_, ?_, ?_, ?_, ?_, ?_, ?_, ?_, ?_, ?_, ?_, ?_, ?_, ?_, ?_⟩
  · intro h
    simp [Device.createShaderModule, h]
  · intro h0 hne hm
    simp [Device.createShaderModule, Device.createShaderModuleFromText, h0, hne, hm]
  · intro h0 hne hm
    simp [Device.createShaderModule, Device.createShaderModuleFromText, h0, hne, hm]
  · cases stage
    case Vertex => exact vertexComputeHeader_contains dp _ vcHeaderBody_contains_bindings
    case Compute => exact vertexComputeHeader_contains dp _ vcHeaderBody_contains_bindings
    case Fragment => exact fragmentHeader_contains dp _ fragHeaderBody_contains_bindings
  · cases stage
    case Vertex => exact vertexComputeHeader_contains dp _ vcHeaderBody_contains_getBuffer
    case Compute => exact vertexComputeHeader_contains dp _ vcHeaderBody_contains_getBuffer
    case Fragment => exact fragmentHeader_contains dp _ fragHeaderBody_contains_getBuffer
  · exact fragmentHeader_contains dp _ fragHeaderBody_contains_arrays
  · exact fragmentHeader_contains dp _ fragHeaderBody_contains_size2D
  · exact fragmentHeader_contains dp _ fragHeaderBody_contains_sample2D
  · exact fragmentHeader_contains dp _ fragHeaderBody_contains_sample2DShadow
  · exact fragmentHeader_contains dp _ fragHeaderBody_contains_sample2DArray
  · exact fragmentHeader_contains dp _ fragHeaderBody_contains_sampleCube
  · exact fragmentHeader_contains dp _ fragHeaderBody_contains_sample3D
  · exact fragmentHeader_contains dp _ fragHeaderBody_contains_lod2D
  · exact strContains_trans _ _ _ (fragmentHeader_contains dp _ fragHeaderBody_contains_size2D)
      (by decide)
  · exact strContains_trans _ _ _ (fragmentHeader_contains dp _ fragHeaderBody_contains_sample2D)
      (by decide)
  · exact strContains_trans _ _ _
      (fragmentHeader_contains dp _ fragHeaderBody_contains_sample2DShadow) (by decide)
  · exact strContains_trans _ _ _
      (fragmentHeader_contains dp _ fragHeaderBody_contains_sample2DArray) (by decide)
  · exact strContains_trans _ _ _
      (fragmentHeader_contains dp _ fragHeaderBody_contains_sampleCube) (by decide)
  · exact strContains_trans _ _ _
      (fragmentHeader_contains dp _ fragHeaderBody_contains_sample3D) (by decide)
  · exact strContains_trans _ _ _
      (fragmentHeader_contains dp _ fragHeaderBody_contains_lod2D) (by decide)
  · exact stageHeader_directive_iff stage dp

/-- Witness for the C6 theorem: a fragment-stage text module without a
version marker receives the fragment header in front of its source. -/
theorem createShaderModule_header_synthesis_witness :
    Device.createShaderModule false
        { stage := ShaderStage.Fragment, data := "void main() \x7b\x7d", dataSize := 0,
          debugName := "" } =
      CompileInput.glslSource ShaderStage.Fragment
        (stageHeader ShaderStage.Fragment false ++ "void main() \x7b\x7d") :=
  (createShaderModule_header_synthesis false ShaderStage.Fragment
      { stage := ShaderStage.Fragment, data := "void main() \x7b\x7d", dataSize := 0,
        debugName := "" }).2.1 rfl (by decide) (by decide)

/-- C7: for every buffer descriptor requesting Private storage, when the
context lacks staging support the effective storage tier recorded at create
and on the created resource is Shared, and when the context has staging
support the requested Private tier is preserved. -/
theorem create_private_demoted_to_shared (ctx : igl.VulkanContext) (desc : igl.BufferDesc)
    (h : desc.storage = ResourceStorage.Private) :
    (ctx.useStaging = false →
      (Buffer.create ctx desc).storage = ResourceStorage.Shared ∧
      ∀ b, (Buffer.create ctx desc).buffer = some b → b.storage = ResourceStorage.Shared) ∧
    (ctx.useStaging = true →
      (Buffer.create ctx desc).storage = ResourceStorage.Private ∧
      ∀ b, (Buffer.create ctx desc).buffer = some b → b.storage = ResourceStorage.Private) := by
  constructor <;> intro hs
  · by_cases ht : desc.type = 0 <;> simp [Buffer.create, hs, h, ht]
  · by_cases ht : desc.type = 0 <;> simp [Buffer.create, hs, h, ht]

/-- Witness for the C7 theorem: a Private vertex-buffer request on a context
without staging support. -/
theorem create_private_demoted_to_shared_witness :
    (false = false →
      (Buffer.create { useStaging := false }
          { data := none, length := 4, type := 2,
            storage := ResourceStorage.Private, debugName := "" }).storage =
        ResourceStorage.Shared ∧
      ∀ b, (Buffer.create { useStaging := false }
          { data := none, length := 4, type := 2,
            storage := ResourceStorage.Private, debugName := "" }).buffer = some b →
        b.storage = ResourceStorage.Shared) ∧
    (false = true →
      (Buffer.create { useStaging := false }
          { data := none, length := 4, type := 2,
            storage := ResourceStorage.Private, debugName := "" }).storage =
        ResourceStorage.Private ∧
      ∀ b, (Buffer.create { useStaging := false }
          { data := none, length := 4, type := 2,
            storage := ResourceStorage.Private, debugName := "" }).buffer = some b →
        b.storage = ResourceStorage.Private) :=
  create_private_demoted_to_shared { useStaging := false }
    { data := none, length := 4, type := 2,
      storage := ResourceStorage.Private, debugName := "" } rfl

/-- C8: getTextureFormatCapabilities returns exactly the Unsupported value,
with no capability bit set, for a format with no native backend equivalent;
for a format with a native equivalent each capability bit is determined by
the OR of the three backend feature-flag sources, the attachment bit by
either the color or the depth-stencil attachment feature, and the
sampled-attachment bit is set exactly when both the sampled and the
attachment bits are set. -/
theorem getTextureFormatCapabilities_bits (p : igl.vulkan.VkFormatProperties) :
    (Device.getTextureFormatCapabilities none = TextureFormatCapabilityBits.Unsupported ∧
     Device.getTextureFormatCapabilities none &&&
       (TextureFormatCapabilityBits.Sampled ||| TextureFormatCapabilityBits.SampledFiltered |||
        TextureFormatCapabilityBits.Storage ||| TextureFormatCapabilityBits.Attachment |||
        TextureFormatCapabilityBits.SampledAttachment) = 0) ∧
    (containsBits (Device.getTextureFormatCapabilities (some p))
        TextureFormatCapabilityBits.Sampled =
      ((p.bufferFeatures ||| p.linearTilingFeatures ||| p.optimalTilingFeatures) &&&
        VK_FORMAT_FEATURE_SAMPLED_IMAGE_BIT != 0)) ∧
    (containsBits (Device.getTextureFormatCapabilities (some p))
        TextureFormatCapabilityBits.Storage =
      ((p.bufferFeatures ||| p.linearTilingFeatures ||| p.optimalTilingFeatures) &&&
        VK_FORMAT_FEATURE_STORAGE_IMAGE_BIT != 0)) ∧
    (containsBits (Device.getTextureFormatCapabilities (some p))
        TextureFormatCapabilityBits.SampledFiltered =
      ((p.bufferFeatures ||| p.linearTilingFeatures ||| p.optimalTilingFeatures) &&&
        VK_FORMAT_FEATURE_SAMPLED_IMAGE_FILTER_LINEAR_BIT != 0)) ∧
    (containsBits (Device.getTextureFormatCapabilities (some p))
        TextureFormatCapabilityBits.Attachment =
      (((p.bufferFeatures ||| p.linearTilingFeatures ||| p.optimalTilingFeatures) &&&
          VK_FORMAT_FEATURE_COLOR_ATTACHMENT_BIT != 0) ||
       ((p.bufferFeatures ||| p.linearTilingFeatures ||| p.optimalTilingFeatures) &&&
          VK_FORMAT_FEATURE_DEPTH_STENCIL_ATTACHMENT_BIT != 0))) ∧
    (containsBits (Device.getTextureFormatCapabilities (some p))
        TextureFormatCapabilityBits.SampledAttachment =
      (containsBits (Device.getTextureFormatCapabilities (some p))
          TextureFormatCapabilityBits.Sampled &&
       containsBits (Device.getTextureFormatCapabilities (some p))
          TextureFormatCapabilityBits.Attachment)) := by
  refine ⟨⟨rfl, by decide⟩, ?_⟩
  simp only [Device.getTextureFormatCapabilities]
  generalize (p.bufferFeatures ||| p.linearTilingFeatures ||| p.optimalTilingFeatures) = f
  cases h1 : f &&& VK_FORMAT_FEATURE_SAMPLED_IMAGE_BIT != 0 <;>
    cases h2 : f &&& VK_FORMAT_FEATURE_STORAGE_IMAGE_BIT != 0 <;>
      cases h3 : f &&& VK_FORMAT_FEATURE_SAMPLED_IMAGE_FILTER_LINEAR_BIT != 0 <;>
        cases h4 : f &&& VK_FORMAT_FEATURE_COLOR_ATTACHMENT_BIT != 0 <;>
          cases h5 : f &&& VK_FORMAT_FEATURE_DEPTH_STENCIL_ATTACHMENT_BIT != 0 <;>
            (simp [h1, h2, h3, h4, h5, containsBits, TextureFormatCapabilityBits.Sampled,
              TextureFormatCapabilityBits.Storage, TextureFormatCapabilityBits.SampledFiltered,
              TextureFormatCapabilityBits.Attachment,
              TextureFormatCapabilityBits.SampledAttachment,
              TextureFormatCapabilityBits.Unsupported]
             <;> decide)

/-- C9 counterexample: at a descriptor whose usage-type bitmask is zero,
Buffer::create fails, Device::createBuffer returns a null handle, yet
nothing is written through the output result, contradicting the claim that
a descriptive error is written whenever create fails. -/
theorem createBuffer_failure_leaves_result_unwritten :
    (Buffer.create { useStaging := true }
        { data := none, length := 4, type := 0,
          storage := ResourceStorage.Shared, debugName := "b" }).result.isOk = false ∧
    (Device.createBuffer { useStaging := true }
        { data := none, length := 4, type := 0,
          storage := ResourceStorage.Shared, debugName := "b" }).handle = none ∧
    (Device.createBuffer { useStaging := true }
        { data := none, length := 4, type := 0,
          storage := ResourceStorage.Shared, debugName := "b" }).written = none := by
  decide

/-- C9 amended: whenever Buffer::create fails, Device::createBuffer returns
a null handle and leaves the output result unwritten; when create succeeds
the handle is non-null, a descriptor without initial data also leaves the
output result unwritten, and a descriptor with initial data yields the
uploaded buffer together with the initial upload result written to the
output result. -/
theorem createBuffer_handle_result_policy (ctx : igl.VulkanContext) (desc : igl.BufferDesc) :
    ((Buffer.create ctx desc).result.isOk = false →
      (Device.createBuffer ctx desc).handle = none ∧
      (Device.createBuffer ctx desc).written = none) ∧
    ((Buffer.create ctx desc).result.isOk = true →
      (Device.createBuffer ctx desc).handle.isSome = true ∧
      (desc.data = none → (Device.createBuffer ctx desc).written = none) ∧
      (∀ d b, desc.data = some d → (Buffer.create ctx desc).buffer = some b →
        (Device.createBuffer ctx desc).handle =
          some (b.upload (some d) { size := desc.length, offset := 0 }).state ∧
        (Device.createBuffer ctx desc).written =
          some (b.upload (some d) { size := desc.length, offset := 0 }).result)) := by
  constructor
  · intro hfail
    simp [Device.createBuffer, hfail]
  · intro hok
    have hbuf : ∃ b, (Buffer.create ctx desc).buffer = some b := by
      unfold Buffer.create at hok ⊢
      by_cases ht : (if ctx.useStaging = false ∧ desc.storage = ResourceStorage.Private then
          { desc with storage := ResourceStorage.Shared } else desc).type = 0
      · simp [ht, Result.isOk] at hok
      · simp [ht]
    rcases hbuf with ⟨b, hb⟩
    refine ⟨?_, ?_, ?_⟩
    · cases hd : desc.data <;> simp [Device.createBuffer, hok, hb, hd]
    · intro hd
      simp [Device.createBuffer, hok, hb, hd]
    · intro d b' hd hb'
      rw [hb] at hb'
      cases hb'
      simp [Device.createBuffer, hok, hb, hd]

/-- Witness for the amended C9 theorem: a Shared uniform buffer created with
two bytes of initial data yields a non-null handle and the upload result
written through the output result. -/
theorem createBuffer_handle_result_policy_witness :
    (Device.createBuffer { useStaging := true } sampleDataDesc).handle.isSome = true ∧
    (Device.createBuffer { useStaging := true } sampleDataDesc).written =
      some Result.success := by
  have h := createBuffer_handle_result_policy { useStaging := true } sampleDataDesc
  have h2 := (h.2 (by decide)).2.2 [1, 2]
    { length := 2, storage := ResourceStorage.Shared, hostVisible := true,
      contents := [0, 0], mappedRange := { size := 0, offset := 0 }, tmpBuffer := [] }
    rfl (by decide)
  refine ⟨(h.2 (by decide)).1, ?_⟩
  rw [h2.2]
  decide

/-- C10: calling map again with a range identical to the active mapping
raises no warning, performs no implicit unmap, and on the device-local path
re-downloads the current device contents into the scratch buffer, so writes
made through the first mapping pointer that were never unmapped are
discarded rather than finalized: device contents are unchanged and the
scratch buffer again equals the device bytes of the range. -/
theorem map_same_range_no_warning_discards_writes (b0 : igl.vulkan.Buffer)
    (r : igl.BufferRange) (d : List Nat)
    (hwf : b0.contents.length = b0.length) (hv : b0.hostVisible = false)
    (hunmapped : b0.mappedRange.size = 0) (hpos : r.size ≠ 0)
    (hsz : r.size ≤ b0.length) (hle : r.offset + r.size ≤ b0.length) :
    (((b0.map r).state.writeMapped d).map r).warned = false ∧
    (((b0.map r).state.writeMapped d).map r).result = Result.success ∧
    (((b0.map r).state.writeMapped d).map r).state.contents = b0.contents ∧
    (((b0.map r).state.writeMapped d).map r).state.tmpBuffer =
      readBytes b0.contents r.offset r.size ∧
    (((b0.map r).state.writeMapped d).map r).state.mappedRange = r := by
  have hcond : ¬ ((r.size > b0.length) ∨ (r.offset > b0.length - r.size)) := by omega
  have hmap1 : (b0.map r).state =
      { b0 with mappedRange := r, tmpBuffer := readBytes b0.contents r.offset r.size } := by
    simp [Buffer.map, hcond, hunmapped, hv, stagingGetBufferSubData]
  rw [hmap1]
  have hw : ({ b0 with
      mappedRange := r
      tmpBuffer := readBytes b0.contents r.offset r.size } : igl.vulkan.Buffer).writeMapped d =
      { b0 with
        mappedRange := r
        tmpBuffer := writeBytes (readBytes b0.contents r.offset r.size) 0 d } := by
    simp [Buffer.writeMapped, hv]
  rw [hw]
  simp [Buffer.map, hcond, hv, stagingGetBufferSubData]

/-- Witness for the C10 theorem: the device-local buffer mapped at the
two-byte range at offset one, written through the scratch pointer and then
mapped again at the same range. -/
theorem map_same_range_no_warning_discards_writes_witness :
    (((sampleDeviceBuffer.map { size := 2, offset := 1 }).state.writeMapped [99, 98]).map
        { size := 2, offset := 1 }).warned = false ∧
    (((sampleDeviceBuffer.map { size := 2, offset := 1 }).state.writeMapped [99, 98]).map
        { size := 2, offset := 1 }).result = Result.success ∧
    (((sampleDeviceBuffer.map { size := 2, offset := 1 }).state.writeMapped [99, 98]).map
        { size := 2, offset := 1 }).state.contents = sampleDeviceBuffer.contents ∧
    (((sampleDeviceBuffer.map { size := 2, offset := 1 }).state.writeMapped [99, 98]).map
        { size := 2, offset := 1 }).state.tmpBuffer =
      readBytes sampleDeviceBuffer.contents 1 2 ∧
    (((sampleDeviceBuffer.map { size := 2, offset := 1 }).state.writeMapped [99, 98]).map
        { size := 2, offset := 1 }).state.mappedRange = { size := 2, offset := 1 } :=
  map_same_range_no_warning_discards_writes sampleDeviceBuffer { size := 2, offset := 1 }
    [99, 98] rfl rfl rfl (by decide) (by decide) (by decide)
